import Mathlib

/-!
Shallow embedding of the MulticopterSim core (VehiclePawn.cpp,
joystick/JoystickLinux.cpp).  Floating-point values are modelled as
rationals; C++ `int` is modelled as `Int`, `uint8_t` as `Nat` (with the
int-to-uint8 conversion made explicit where the source performs it),
bytes as `Fin 256`.  Socket I/O is modelled by passing the would-be
receive result and received data as explicit arguments.
-/

/-- An Unreal `FVector` (three float components), modelled over ℚ. -/
structure FVector where
  x : ℚ
  y : ℚ
  z : ℚ
deriving DecidableEq

/-- Componentwise vector subtraction, as used by `euler - _eulerPrev`. -/
def fvecSub (a b : FVector) : FVector :=
  ⟨a.x - b.x, a.y - b.y, a.z - b.z⟩

/-- Componentwise division of a vector by a scalar, as used by `... / DeltaSeconds`. -/
def fvecDivScalar (a : FVector) (s : ℚ) : FVector :=
  ⟨a.x / s, a.y / s, a.z / s⟩

/-- An Unreal `FQuat` (W, X, Y, Z float components), modelled over ℚ. -/
structure FQuat where
  w : ℚ
  x : ℚ
  y : ℚ
  z : ℚ
deriving DecidableEq

/-- The four-float array `q[4]` filled in by `AVehiclePawn::getQuaternion`. -/
structure QuatArray where
  q0 : ℚ
  q1 : ℚ
  q2 : ℚ
  q3 : ℚ
deriving DecidableEq

/-- `AVehiclePawn::motorsToAngularForce` (VehiclePawn.cpp:326-331):
`v = (_motorvals[a] + _motorvals[b]) - (_motorvals[c] + _motorvals[d]);
return (v<0 ? -1 : +1) * fabs(v);` -/
def motorsToAngularForce (motorvals : Fin 4 → ℚ) (a b c d : Fin 4) : ℚ :=
  let v : ℚ := (motorvals a + motorvals b) - (motorvals c + motorvals d)
  (if v < 0 then -1 else 1) * |v|

/-- The motor command vector [1,0,1,0] of the end-to-end scenario. -/
def motorvals1010 : Fin 4 → ℚ := fun i => if i = 0 ∨ i = 2 then 1 else 0

/-- The motor command vector [0,1,0,1] of the end-to-end scenario. -/
def motorvals0101 : Fin 4 → ℚ := fun i => if i = 1 ∨ i = 3 then 1 else 0

/-- The gyro-emulation first difference computed each `Tick`
(VehiclePawn.cpp:283): `_gyro = (euler - _eulerPrev) / DeltaSeconds`. -/
def tickGyro (euler eulerPrev : FVector) (dt : ℚ) : FVector :=
  fvecDivScalar (fvecSub euler eulerPrev) dt

/-- `AVehiclePawn::getGyrometer` (VehiclePawn.cpp:496-505):
`gyroRates[0] = _gyro.X; gyroRates[1] = _gyro.Y; gyroRates[2] = 0;`
(the noise-injection line is commented out in the source). -/
def getGyrometer (gyro : FVector) : FVector :=
  ⟨gyro.x, gyro.y, 0⟩

/-- The accelerometer-emulation first difference computed each `Tick`
(VehiclePawn.cpp:288): `_accelZ = (vario - _varioPrev) / DeltaSeconds`. -/
def verticalVelocityToAccel (vario varioPrev dt : ℚ) : ℚ :=
  (vario - varioPrev) / dt

/-- `AVehiclePawn::getQuaternion` (VehiclePawn.cpp:484-494):
`q[0] = +_quat.W; q[1] = -_quat.X; q[2] = -_quat.Y; q[3] = +_quat.Z;`
followed by `_quatNoise.addNoise(q)`, which adds one pseudo-random
Gaussian sample to each component (`GaussianNoise::addNoise`,
VehiclePawn.cpp:346-351).  The four generator samples are passed as
explicit arguments. -/
def getQuaternion (quat : FQuat) (n0 n1 n2 n3 : ℚ) : QuatArray :=
  { q0 := quat.w + n0
    q1 := -quat.x + n1
    q2 := -quat.y + n2
    q3 := quat.z + n3 }

/-- `AVehiclePawn::getTime` state update (VehiclePawn.cpp:512-518):
`_elapsedTime += .01; return _elapsedTime;` — the returned value equals
the updated member. -/
def getTimeStep (elapsedTime : ℚ) : ℚ :=
  elapsedTime + 1 / 100

/-- `_elapsedTime = 1.0` in `BeginPlay` (VehiclePawn.cpp:210),
"avoid divide-by-zero". -/
def elapsedTimeInit : ℚ := 1

/-- Value of `_elapsedTime` (equivalently, of the value returned by the
n-th `getTime` call) after n calls to `getTime` following `BeginPlay`. -/
def elapsedTimeAfter : Nat → ℚ
  | 0 => elapsedTimeInit
  | n + 1 => getTimeStep (elapsedTimeAfter n)

/-- State of the serial bridge inside `AVehiclePawn`: the signed
available-byte count `_serverAvailableBytes`, the read cursor
`_serverByteIndex`, the byte buffer `_serverBuffer`, and whether
`server.connected()` currently holds. -/
structure SerialState where
  serverAvailableBytes : Int
  serverByteIndex : Nat
  serverBuffer : Nat → Fin 256
  connected : Bool

/-- C++ conversion of a signed `int` to `uint8_t` (reduction modulo 256). -/
def cppIntToUInt8 (v : Int) : Nat := (v % 256).toNat

/-- `AVehiclePawn::serialAvailableBytes` (VehiclePawn.cpp:520-536).
`recv` is the value `server.receiveBuffer(_serverBuffer, BUFLEN)` would
return and `data` the buffer contents it would deposit; the `Bool` in
the result records whether that socket receive was performed.  The
returned count goes through the `uint8_t` return-type conversion. -/
def serialAvailableBytes (s : SerialState) (recv : Int) (data : Nat → Fin 256) :
    Nat × Bool × SerialState :=
  if 0 < s.serverAvailableBytes then
    (cppIntToUInt8 s.serverAvailableBytes, false, s)
  else if s.connected then
    let n : Int := if recv < 0 then 0 else recv
    (cppIntToUInt8 n, true,
     { s with serverAvailableBytes := n, serverByteIndex := 0, serverBuffer := data })
  else
    (0, false, s)

/-- `AVehiclePawn::serialReadByte` (VehiclePawn.cpp:538-544):
`byte = _serverBuffer[_serverByteIndex]; _serverByteIndex++;
_serverAvailableBytes--; return byte;` -/
def serialReadByte (s : SerialState) : Fin 256 × SerialState :=
  (s.serverBuffer s.serverByteIndex,
   { s with serverByteIndex := s.serverByteIndex + 1,
            serverAvailableBytes := s.serverAvailableBytes - 1 })

/-- n successive calls to `serialReadByte`, keeping only the final state. -/
def serialReadByteN : Nat → SerialState → SerialState
  | 0, s => s
  | n + 1, s => serialReadByteN n (serialReadByte s).2

/-- Index `AX_AU1 = 4` of the `axes` enum in JoystickLinux.cpp:25-34. -/
def AX_AU1 : Nat := 4

/-- `handleRealflightInterlinkButtons` (JoystickLinux.cpp:86-106): four
sequential `if` statements on the event's button `number` and `value`,
each writing `axes[AX_AU1]`. -/
def handleRealflightInterlinkButtons (number : Nat) (value : Int) (axes : Nat → ℚ) :
    Nat → ℚ :=
  let axes1 := if number = 3 ∧ value = 1 then Function.update axes AX_AU1 0 else axes
  let axes2 := if number = 3 ∧ value = 0 then Function.update axes1 AX_AU1 (1 / 2) else axes1
  let axes3 := if number = 4 ∧ value = 0 then Function.update axes2 AX_AU1 (1 / 2) else axes2
  if number = 4 ∧ value = 1 then Function.update axes3 AX_AU1 1 else axes3

/-- The data handed to `new SimReceiver(axismap, buttonmap,
reversedVerticals, springyThrottle, useButtonForAux)` at the end of
`AVehiclePawn::joystickInit` (VehiclePawn.cpp:457). -/
structure SimReceiverProfile where
  axismap : Fin 5 → Nat
  buttonmap : Fin 5 → Nat
  reversedVerticals : Bool
  springyThrottle : Bool
  useButtonForAux : Bool

/-- Vendor/product identity constants from joystickapi.h (values are
only compared for equality by `joystickInit`). -/
structure JoyIds where
  VENDOR_STM : Nat
  PRODUCT_TARANIS : Nat
  PRODUCT_PS3_CLONE : Nat
  PRODUCT_PS4 : Nat
  PRODUCT_XBOX360_CLONE : Nat
  PRODUCT_EXTREMEPRO3D : Nat
  PRODUCT_F310 : Nat

/-- Single-entry update of a five-slot map. -/
def upd5 (m : Fin 5 → Nat) (i : Fin 5) (v : Nat) : Fin 5 → Nat :=
  Function.update m i v

/-- `AVehiclePawn::joystickInit` (VehiclePawn.cpp:356-459).  The local
arrays `uint8_t axismap[5]; uint8_t buttonmap[5];` are declared without
an initializer, so their initial (indeterminate) contents are passed in
as `axismap0`/`buttonmap0`; every assignment the source performs is an
`upd5`.  `deviceFound` is whether some `_joyid < 16` satisfied
`joyGetDevCaps`; `vendorId`/`productId` are `joycaps.wMid`/`joycaps.wPid`. -/
def joystickInit (ids : JoyIds) (deviceFound : Bool) (vendorId productId : Nat)
    (axismap0 buttonmap0 : Fin 5 → Nat) : SimReceiverProfile :=
  if deviceFound then
    if vendorId = ids.VENDOR_STM then
      if productId = ids.PRODUCT_TARANIS then
        { axismap := upd5 (upd5 (upd5 (upd5 (upd5 axismap0 0 0) 1 1) 2 2) 3 5) 4 3
          buttonmap := buttonmap0
          reversedVerticals := false, springyThrottle := false, useButtonForAux := false }
      else
        { axismap := upd5 (upd5 (upd5 (upd5 (upd5 axismap0 0 1) 1 2) 2 5) 3 0) 4 4
          buttonmap := buttonmap0
          reversedVerticals := false, springyThrottle := false, useButtonForAux := false }
    else
      if productId = ids.PRODUCT_PS3_CLONE ∨ productId = ids.PRODUCT_PS4 then
        { axismap := upd5 (upd5 (upd5 (upd5 axismap0 0 1) 1 2) 2 3) 3 0
          buttonmap := upd5 (upd5 (upd5 buttonmap0 0 1) 1 2) 2 4
          reversedVerticals := true, springyThrottle := true, useButtonForAux := true }
      else if productId = ids.PRODUCT_XBOX360_CLONE then
        { axismap := upd5 (upd5 (upd5 (upd5 axismap0 0 1) 1 4) 2 3) 3 0
          buttonmap := upd5 (upd5 (upd5 buttonmap0 0 8) 1 2) 2 1
          reversedVerticals := true, springyThrottle := true, useButtonForAux := true }
      else if productId = ids.PRODUCT_EXTREMEPRO3D then
        { axismap := upd5 (upd5 (upd5 (upd5 axismap0 0 2) 1 0) 2 1) 3 3
          buttonmap := upd5 (upd5 (upd5 buttonmap0 0 1) 1 2) 2 4
          reversedVerticals := true, springyThrottle := false, useButtonForAux := true }
      else if productId = ids.PRODUCT_F310 then
        { axismap := upd5 (upd5 (upd5 (upd5 axismap0 0 1) 1 4) 2 3) 3 0
          buttonmap := upd5 (upd5 (upd5 buttonmap0 0 8) 1 2) 2 1
          reversedVerticals := true, springyThrottle := true, useButtonForAux := true }
      else
        { axismap := axismap0, buttonmap := buttonmap0
          reversedVerticals := true, springyThrottle := false, useButtonForAux := false }
  else
    { axismap := axismap0, buttonmap := buttonmap0
      reversedVerticals := false, springyThrottle := false, useButtonForAux := false }

/-! ## Theorems -/

/-- C10: for every motor command vector and all indices a, b, c, d in 0..3,
`motorsToAngularForce(a,b,c,d)` equals the plain signed difference
`(motor[a]+motor[b]) - (motor[c]+motor[d])`: the expression
`(v<0 ? -1 : +1) * fabs(v)` is the identity on `v`. -/
theorem motorsToAngularForce_eq_signed_difference (m : Fin 4 → ℚ) (a b c d : Fin 4) :
    motorsToAngularForce m a b c d = (m a + m b) - (m c + m d) := by
  by_cases h : (m a + m b) - (m c + m d) < 0
  · simp only [motorsToAngularForce, if_pos h, abs_of_neg h]; ring
  · simp only [motorsToAngularForce, if_neg h, abs_of_nonneg (not_lt.mp h)]; ring

/-- C1 (counterexample): for motor vector [1,0,1,0] the call
`motorsToAngularForce(a=2,b=3,c=0,d=1)` does NOT return +1, and for
[0,1,0,1] it does NOT return -1: both diagonal sums are equal, so the
signed difference is 0 in each case. -/
theorem motorsToAngularForce_scenario_refuted :
    ¬ (motorsToAngularForce motorvals1010 2 3 0 1 = 1 ∧
       motorsToAngularForce motorvals0101 2 3 0 1 = -1) := by
  have e0 : motorvals1010 0 = 1 := rfl
  have e1 : motorvals1010 1 = 0 := rfl
  have e2 : motorvals1010 2 = 1 := rfl
  have e3 : motorvals1010 3 = 0 := rfl
  simp only [motorsToAngularForce, e0, e1, e2, e3]
  norm_num

/-- C1 (amended): for motor vector [1,0,1,0] the call
`motorsToAngularForce(a=2,b=3,c=0,d=1)` returns 0, and for [0,1,0,1] the
same call also returns 0. -/
theorem motorsToAngularForce_scenario_amended :
    motorsToAngularForce motorvals1010 2 3 0 1 = 0 ∧
    motorsToAngularForce motorvals0101 2 3 0 1 = 0 := by
  have e0 : motorvals1010 0 = 1 := rfl
  have e1 : motorvals1010 1 = 0 := rfl
  have e2 : motorvals1010 2 = 1 := rfl
  have e3 : motorvals1010 3 = 0 := rfl
  have f0 : motorvals0101 0 = 0 := rfl
  have f1 : motorvals0101 1 = 1 := rfl
  have f2 : motorvals0101 2 = 0 := rfl
  have f3 : motorvals0101 3 = 1 := rfl
  simp only [motorsToAngularForce, e0, e1, e2, e3, f0, f1, f2, f3]
  norm_num

/-- C9: the vertical-acceleration finite difference is linear in its
velocity samples: scaling both samples by k scales the result by k
(dt fixed and nonzero). -/
theorem verticalVelocityToAccel_linear (k c p dt : ℚ) (_hdt : dt ≠ 0) :
    verticalVelocityToAccel (k * c) (k * p) dt = k * verticalVelocityToAccel c p dt := by
  unfold verticalVelocityToAccel
  ring

/-- C9 witness at k = 2, samples (3, 1), dt = 1. -/
theorem verticalVelocityToAccel_linear_witness :
    (1 : ℚ) ≠ 0 ∧
    verticalVelocityToAccel (2 * 3) (2 * 1) 1 = 2 * verticalVelocityToAccel 3 1 1 :=
  ⟨by norm_num, verticalVelocityToAccel_linear 2 3 1 1 (by norm_num)⟩

/-- C4: the emulated gyro rates equal the finite difference
`(euler - eulerPrev) / dt` in the roll and pitch components while the
yaw-rate component is always exactly 0; when the Euler angles are
unchanged the returned rate vector is the zero vector (dt nonzero). -/
theorem getGyrometer_spec (e ep : FVector) (dt : ℚ) (_hdt : dt ≠ 0) :
    getGyrometer (tickGyro e ep dt) =
      ⟨(e.x - ep.x) / dt, (e.y - ep.y) / dt, 0⟩ ∧
    (e = ep → getGyrometer (tickGyro e ep dt) = ⟨0, 0, 0⟩) := by
  constructor
  · rfl
  · intro h
    subst h
    unfold getGyrometer tickGyro fvecDivScalar fvecSub
    simp

/-- C4 witness at identical Euler samples (1,2,3) and dt = 1. -/
theorem getGyrometer_spec_witness :
    (1 : ℚ) ≠ 0 ∧
    getGyrometer (tickGyro ⟨1, 2, 3⟩ ⟨1, 2, 3⟩ 1) = ⟨0, 0, 0⟩ :=
  ⟨by norm_num, (getGyrometer_spec ⟨1, 2, 3⟩ ⟨1, 2, 3⟩ 1 (by norm_num)).2 rfl⟩

/-- C5 (counterexample): the quaternion delivered by `getQuaternion` is
NOT always exactly (W,-X,-Y,Z): `_quatNoise.addNoise` is applied
afterwards, so with quaternion (1,0,0,0) and a nonzero first noise
sample the delivered array differs from (1,0,0,0). -/
theorem getQuaternion_claim_refuted :
    getQuaternion ⟨1, 0, 0, 0⟩ 1 0 0 0 ≠ ⟨1, 0, 0, 0⟩ := by
  simp only [getQuaternion, QuatArray.mk.injEq]
  norm_num

/-- C5 (amended): `getQuaternion` first forms exactly (W,-X,-Y,Z) —
W and Z passed through, X and Y negated — and then adds one Gaussian
noise sample to each component; in particular with zero noise samples
the delivered quaternion is exactly (W,-X,-Y,Z). -/
theorem getQuaternion_spec (quat : FQuat) (n0 n1 n2 n3 : ℚ) :
    getQuaternion quat n0 n1 n2 n3 =
      ⟨quat.w + n0, -quat.x + n1, -quat.y + n2, quat.z + n3⟩ ∧
    getQuaternion quat 0 0 0 0 = ⟨quat.w, -quat.x, -quat.y, quat.z⟩ := by
  refine ⟨rfl, ?_⟩
  unfold getQuaternion
  simp

/-- Closed form: after n `getTime` calls the elapsed time is 1 + n/100. -/
theorem elapsedTimeAfter_closed (n : Nat) : elapsedTimeAfter n = 1 + (n : ℚ) / 100 := by
  induction n with
  | zero => simp [elapsedTimeAfter, elapsedTimeInit]
  | succ n ih =>
    rw [elapsedTimeAfter, getTimeStep, ih]
    push_cast
    ring

/-- C6: elapsed time is seeded to 1.0 and each `getTime` call increments
it by exactly 0.01 before returning it; the returned values are strictly
increasing, always at least 1.0, and never zero. -/
theorem getTime_spec (n : Nat) :
    elapsedTimeAfter (n + 1) = elapsedTimeAfter n + 1 / 100 ∧
    1 ≤ elapsedTimeAfter n ∧
    (∀ m : Nat, n < m → elapsedTimeAfter n < elapsedTimeAfter m) ∧
    elapsedTimeAfter n ≠ 0 := by
  have key := elapsedTimeAfter_closed
  have hn : (0 : ℚ) ≤ (n : ℚ) / 100 := by positivity
  refine ⟨rfl, ?_, ?_, ?_⟩
  · rw [key]; linarith
  · intro m hm
    rw [key, key]
    have hq : (n : ℚ) < (m : ℚ) := by exact_mod_cast hm
    linarith
  · rw [key]; intro hc; linarith

/-- C6 witness: the first returned value is below the third. -/
theorem getTime_spec_witness :
    0 < 2 ∧ elapsedTimeAfter 0 < elapsedTimeAfter 2 :=
  ⟨by decide, (getTime_spec 0).2.2.1 2 (by decide)⟩

/-- C7: a button event asserting button 3 sets the aux axis to 0.0, one
asserting button 4 sets it to 1.0, and a release event (value 0) on
either button sets it to 0.5, for every prior axes state. -/
theorem handleRealflightInterlinkButtons_spec (axes : Nat → ℚ) :
    handleRealflightInterlinkButtons 3 1 axes AX_AU1 = 0 ∧
    handleRealflightInterlinkButtons 4 1 axes AX_AU1 = 1 ∧
    handleRealflightInterlinkButtons 3 0 axes AX_AU1 = 1 / 2 ∧
    handleRealflightInterlinkButtons 4 0 axes AX_AU1 = 1 / 2 := by
  unfold handleRealflightInterlinkButtons
  norm_num [Function.update]

/-- C2: if the internal available-byte count is positive,
`serialAvailableBytes` returns that count without performing any socket
receive and leaves the state unchanged; when the count is zero and a
client is connected it performs a single receive, resets the read cursor
to zero, stores and returns the received count with zero or negative
receive results normalized to zero (so the count is never negative);
when the count is zero and no client is connected it returns 0 without
receiving.  The bounds hypotheses reflect that counts fit in the
`uint8_t` return type. -/
theorem serialAvailableBytes_spec (s : SerialState) (recv : Int) (data : Nat → Fin 256)
    (hcap : s.serverAvailableBytes ≤ 255) (hrecv : recv ≤ 255) :
    (0 < s.serverAvailableBytes →
      (serialAvailableBytes s recv data).1 = s.serverAvailableBytes.toNat ∧
      (serialAvailableBytes s recv data).2.1 = false ∧
      (serialAvailableBytes s recv data).2.2 = s) ∧
    (s.serverAvailableBytes = 0 → s.connected = true →
      (serialAvailableBytes s recv data).2.1 = true ∧
      (serialAvailableBytes s recv data).2.2.serverByteIndex = 0 ∧
      (serialAvailableBytes s recv data).2.2.serverAvailableBytes =
        (if recv < 0 then 0 else recv) ∧
      (serialAvailableBytes s recv data).1 = (if recv < 0 then 0 else recv).toNat ∧
      0 ≤ (serialAvailableBytes s recv data).2.2.serverAvailableBytes) ∧
    (s.serverAvailableBytes = 0 → s.connected = false →
      (serialAvailableBytes s recv data).1 = 0 ∧
      (serialAvailableBytes s recv data).2.1 = false ∧
      (serialAvailableBytes s recv data).2.2 = s) := by
  refine ⟨fun h => ?_, fun h0 hc => ?_, fun h0 hc => ?_⟩
  · rw [show serialAvailableBytes s recv data =
        (cppIntToUInt8 s.serverAvailableBytes, false, s) from by
      unfold serialAvailableBytes; rw [if_pos h]]
    exact ⟨by unfold cppIntToUInt8; omega, rfl, rfl⟩
  · rw [show serialAvailableBytes s recv data =
        (cppIntToUInt8 (if recv < 0 then 0 else recv), true,
         { s with serverAvailableBytes := if recv < 0 then 0 else recv,
                  serverByteIndex := 0, serverBuffer := data }) from by
      unfold serialAvailableBytes
      rw [if_neg (show ¬ 0 < s.serverAvailableBytes by omega), if_pos hc]]
    refine ⟨rfl, rfl, rfl, ?_, ?_⟩
    · unfold cppIntToUInt8
      split <;> omega
    · dsimp only
      split <;> omega
  · rw [show serialAvailableBytes s recv data = (0, false, s) from by
      unfold serialAvailableBytes
      rw [if_neg (show ¬ 0 < s.serverAvailableBytes by omega),
          if_neg (show ¬ s.connected = true by simp [hc])]]
    exact ⟨rfl, rfl, rfl⟩

/-- C2 witness: with 5 bytes already available, the call returns 5 and
does no receive. -/
theorem serialAvailableBytes_spec_witness :
    ((⟨5, 2, fun _ => 0, true⟩ : SerialState).serverAvailableBytes ≤ 255 ∧
     (7 : Int) ≤ 255 ∧ 0 < (⟨5, 2, fun _ => 0, true⟩ : SerialState).serverAvailableBytes) ∧
    (serialAvailableBytes ⟨5, 2, fun _ => 0, true⟩ 7 (fun _ => 0)).1 =
      ((5 : Int)).toNat ∧
    (serialAvailableBytes ⟨5, 2, fun _ => 0, true⟩ 7 (fun _ => 0)).2.1 = false :=
  ⟨⟨by norm_num, by norm_num, by norm_num⟩,
   ((serialAvailableBytes_spec ⟨5, 2, fun _ => 0, true⟩ 7 (fun _ => 0)
      (by norm_num) (by norm_num)).1 (by norm_num)).1,
   (((serialAvailableBytes_spec ⟨5, 2, fun _ => 0, true⟩ 7 (fun _ => 0)
      (by norm_num) (by norm_num)).1 (by norm_num)).2).1⟩

/-- Helper: n calls to `serialReadByte` decrement the available count by
exactly n. -/
theorem serialReadByteN_available (n : Nat) :
    ∀ s : SerialState,
      (serialReadByteN n s).serverAvailableBytes = s.serverAvailableBytes - n := by
  induction n with
  | zero => intro s; simp [serialReadByteN]
  | succ n ih =>
    intro s
    rw [serialReadByteN, ih]
    simp only [serialReadByte]
    omega

/-- C3: with available count N > 0, `serialReadByte` returns the byte at
the current read cursor, advances the cursor by one and decrements the
available count by one; calling it exactly N times brings the available
count to 0. -/
theorem serialReadByte_spec (s : SerialState) (N : Nat) (_hN : 0 < N)
    (hs : s.serverAvailableBytes = N) :
    (serialReadByte s).1 = s.serverBuffer s.serverByteIndex ∧
    (serialReadByte s).2.serverByteIndex = s.serverByteIndex + 1 ∧
    (serialReadByte s).2.serverAvailableBytes = s.serverAvailableBytes - 1 ∧
    (serialReadByteN N s).serverAvailableBytes = 0 := by
  refine ⟨rfl, rfl, rfl, ?_⟩
  rw [serialReadByteN_available, hs]
  omega

/-- C3 witness: a state with 2 available bytes is drained to 0 by 2 reads. -/
theorem serialReadByte_spec_witness :
    (0 < 2 ∧ (⟨2, 0, fun _ => 0, true⟩ : SerialState).serverAvailableBytes = (2 : Nat)) ∧
    (serialReadByteN 2 ⟨2, 0, fun _ => 0, true⟩).serverAvailableBytes = 0 :=
  ⟨⟨by decide, by norm_num⟩,
   (serialReadByte_spec ⟨2, 0, fun _ => 0, true⟩ 2 (by decide) (by norm_num)).2.2.2⟩

/-- C8: evaluation of `joystickInit` at the failing input "no joystick
device found" with arbitrary (uninitialized-stack) array contents 7 and
9: the profile handed to `SimReceiver` reproduces that arbitrary
content instead of the all-zero maps the specification requires, because
the local arrays are never initialized on this path. -/
theorem joystickInit_no_device_not_zeroed :
    (joystickInit ⟨0, 0, 0, 0, 0, 0, 0⟩ false 0 0 (fun _ => 7) (fun _ => 9)).axismap 0 = 7 ∧
    (joystickInit ⟨0, 0, 0, 0, 0, 0, 0⟩ false 0 0 (fun _ => 7) (fun _ => 9)).buttonmap 0 = 9 ∧
    ¬ ((joystickInit ⟨0, 0, 0, 0, 0, 0, 0⟩ false 0 0 (fun _ => 7) (fun _ => 9)).axismap 0 = 0 ∧
       (joystickInit ⟨0, 0, 0, 0, 0, 0, 0⟩ false 0 0 (fun _ => 7) (fun _ => 9)).buttonmap 0 = 0) := by
  refine ⟨rfl, rfl, ?_⟩
  intro h
  exact absurd h.1 (by norm_num [joystickInit])
